import Mathlib

/-!
Shallow embedding of the fitness-tracker CRUD core (`src/db/crud.py`,
`src/db/database.py`, `src/models/schemas.py`, and the route handlers that
wrap `delete_exercise`).  Python dictionaries are modelled as insertion-ordered
association lists (`List (κ × α)`): assignment to an existing key replaces the
entry in place, assignment to a fresh key appends, deletion removes the entry,
and iteration follows list order — exactly Python's `dict` semantics when keys
are unique.  `datetime.now()` / `date.today()` are passed in explicitly as
abstract `Nat` clock values.
-/

namespace FitnessTracker

/-- `d.get(k)` on a Python dict: first entry with the key, if any. -/
def dlookup {κ α : Type} [DecidableEq κ] : List (κ × α) → κ → Option α
  | [], _ => none
  | (k', v) :: rest, k => if k' = k then some v else dlookup rest k

/-- `k in d` on a Python dict. -/
def dcontains {κ α : Type} [DecidableEq κ] (d : List (κ × α)) (k : κ) : Bool :=
  (dlookup d k).isSome

/-- `d[k] = v` on a Python dict: replace in place if present, else append. -/
def dinsert {κ α : Type} [DecidableEq κ] : List (κ × α) → κ → α → List (κ × α)
  | [], k, v => [(k, v)]
  | (k', v') :: rest, k, v =>
      if k' = k then (k, v) :: rest else (k', v') :: dinsert rest k v

/-- `del d[k]` on a Python dict (identity when the key is absent; callers in
the source always guard deletion with a containment check). -/
def derase {κ α : Type} [DecidableEq κ] : List (κ × α) → κ → List (κ × α)
  | [], _ => []
  | (k', v') :: rest, k => if k' = k then rest else (k', v') :: derase rest k

/-- The keys of a modelled dict, in iteration order. -/
def dkeys {κ α : Type} (d : List (κ × α)) : List κ := d.map Prod.fst

-- Enumerations from `src/models/schemas.py`.

inductive WorkoutCategory where
  | strength | cardio | mobility | hiit | yoga | crossfit
deriving DecidableEq, Repr

inductive MuscleGroup where
  | chest | back | legs | shoulders | arms | core | full_body
deriving DecidableEq, Repr

-- Entity records from `src/models/schemas.py`.  Python `float` fields are
-- carried as `Rat` (the CRUD layer only stores and compares them), `datetime`
-- and `date` as abstract `Nat` instants.

structure User where
  id : Nat
  email : String
  username : String
  full_name : Option String
  is_active : Bool
  created_at : Nat
deriving DecidableEq, Repr

structure UserCreate where
  email : String
  username : String
  full_name : Option String
  password : String
deriving DecidableEq, Repr

/-- `UserUpdate`: a sparse patch; `none` means the field was not supplied
(pydantic `model_dump(exclude_unset=True)` omits it). -/
structure UserUpdate where
  email : Option String
  username : Option String
  full_name : Option String
deriving DecidableEq, Repr

structure Exercise where
  id : Nat
  name : String
  description : Option String
  muscle_groups : List MuscleGroup
  equipment_needed : Option String
  created_by : Option Nat
deriving DecidableEq, Repr

structure ExerciseSet where
  id : Nat
  exercise_id : Nat
  reps : Option Nat
  weight : Option Rat
  duration_seconds : Option Nat
  distance : Option Rat
  notes : Option String
deriving DecidableEq, Repr

structure ExerciseSetCreate where
  exercise_id : Nat
  reps : Option Nat
  weight : Option Rat
  duration_seconds : Option Nat
  distance : Option Rat
  notes : Option String
deriving DecidableEq, Repr

structure Workout where
  id : Nat
  title : String
  description : Option String
  category : WorkoutCategory
  duration_minutes : Nat
  calories_burned : Option Nat
  notes : Option String
  created_at : Nat
  user_id : Option Nat
deriving DecidableEq, Repr

structure WorkoutCreate where
  title : String
  description : Option String
  category : WorkoutCategory
  duration_minutes : Nat
  calories_burned : Option Nat
  notes : Option String
  exercise_sets : Option (List ExerciseSetCreate)
deriving DecidableEq, Repr

structure WorkoutDetail where
  workout : Workout
  exercise_sets : List ExerciseSet
deriving DecidableEq, Repr

structure WorkoutPlan where
  id : Nat
  name : String
  description : Option String
  duration_weeks : Nat
  target_muscle_groups : List MuscleGroup
  difficulty_level : Nat
  created_at : Nat
  created_by : Nat
  workouts : List Nat
deriving DecidableEq, Repr

structure UserStats where
  user_id : Nat
  weight : Option Rat
  height : Option Rat
  body_fat_percentage : Option Rat
  total_workouts : Nat
  total_workout_minutes : Nat
  streak_days : Nat
  last_workout_date : Option Nat
  last_updated : Nat
deriving DecidableEq, Repr

/-- The Record Store: the module-level dictionaries and id counters of
`src/db/database.py` that the claims touch. -/
structure Store where
  users_db : List (Nat × User)
  user_id_counter : Nat
  users_passwords : List (String × String)
  exercises_db : List (Nat × Exercise)
  exercise_id_counter : Nat
  exercise_sets_db : List (Nat × ExerciseSet)
  exercise_set_id_counter : Nat
  workouts_db : List (Nat × Workout)
  workout_id_counter : Nat
  workout_exercise_sets : List (Nat × List Nat)
  workout_plans_db : List (Nat × WorkoutPlan)
  workout_plan_id_counter : Nat
  user_stats_db : List (Nat × UserStats)
deriving DecidableEq, Repr

-- Python truthiness, used where the source tests a value with a bare `if`.

/-- Python truthiness of an `Optional[List[...]]`: `None` and `[]` are falsy
(`if workout.exercise_sets:` in `create_workout` / `update_workout`). -/
def truthyOptList {α : Type} : Option (List α) → Bool
  | none => false
  | some l => !l.isEmpty

/-- Python truthiness of an `Optional[int]`: `None` and `0` are falsy
(`if user_id and ...` in `create_workout`, `if existing_exercise.created_by`
in the exercise route handlers). -/
def truthyOptNat : Option Nat → Bool
  | none => false
  | some n => n != 0

-- User CRUD operations (`src/db/crud.py`).

/-- `get_user_by_username`: first user (in dict iteration order) with the
given username. -/
def get_user_by_username (s : Store) (username : String) : Option User :=
  (s.users_db.find? (fun p => p.2.username == username)).map Prod.snd

/-- `get_user_by_email`: first user with the given email. -/
def get_user_by_email (s : Store) (email : String) : Option User :=
  (s.users_db.find? (fun p => p.2.email == email)).map Prod.snd

/-- Stand-in for `utils.auth.get_password_hash` (an external bcrypt call);
the CRUD layer only stores the returned string opaquely. -/
def get_password_hash (password : String) : String :=
  String.append "bcrypt$" password

/-- `create_user`: fails with `none` on a duplicate username or email,
otherwise stores the user, its password hash (keyed by username) and a fresh
all-zero `UserStats`, then bumps the id counter. -/
def create_user (s : Store) (user : UserCreate) (now : Nat) : Option User × Store :=
  if (get_user_by_username s user.username).isSome then (none, s)
  else if (get_user_by_email s user.email).isSome then (none, s)
  else
    let uid := s.user_id_counter
    let new_user : User :=
      { id := uid, email := user.email, username := user.username
        full_name := user.full_name, is_active := true, created_at := now }
    let stats : UserStats :=
      { user_id := uid, weight := none, height := none
        body_fat_percentage := none, total_workouts := 0
        total_workout_minutes := 0, streak_days := 0
        last_workout_date := none, last_updated := now }
    (some new_user,
      { s with
        users_db := dinsert s.users_db uid new_user
        users_passwords :=
          dinsert s.users_passwords user.username (get_password_hash user.password)
        user_stats_db := dinsert s.user_stats_db uid stats
        user_id_counter := uid + 1 })

/-- The `setattr` loop of `update_user`: apply exactly the fields present in
the sparse patch, in field-declaration order. -/
def apply_user_update (u : User) (p : UserUpdate) : User :=
  let u1 := match p.email with
    | some e => { u with email := e }
    | none => u
  let u2 := match p.username with
    | some n => { u1 with username := n }
    | none => u1
  match p.full_name with
  | some f => { u2 with full_name := some f }
  | none => u2

/-- `update_user`: sparse-patch update; `none` and untouched store when the id
is absent.  No uniqueness check is performed. -/
def update_user (s : Store) (user_id : Nat) (user_data : UserUpdate) :
    Option User × Store :=
  match dlookup s.users_db user_id with
  | none => (none, s)
  | some current_user =>
      let updated := apply_user_update current_user user_data
      (some updated, { s with users_db := dinsert s.users_db user_id updated })

/-- `delete_user`: removes the user, its password hash and its stats. -/
def delete_user (s : Store) (user_id : Nat) : Bool × Store :=
  match dlookup s.users_db user_id with
  | none => (false, s)
  | some user =>
      let s := { s with users_db := derase s.users_db user_id }
      let s :=
        if dcontains s.users_passwords user.username then
          { s with users_passwords := derase s.users_passwords user.username }
        else s
      let s :=
        if dcontains s.user_stats_db user_id then
          { s with user_stats_db := derase s.user_stats_db user_id }
        else s
      (true, s)

-- Workout CRUD operations.

/-- Materialization of one embedded `ExerciseSetCreate` as an `ExerciseSet`
with a freshly assigned id (`ExerciseSet(id=..., **es_data.model_dump())`). -/
def mk_exercise_set (id : Nat) (es : ExerciseSetCreate) : ExerciseSet :=
  { id := id, exercise_id := es.exercise_id, reps := es.reps
    weight := es.weight, duration_seconds := es.duration_seconds
    distance := es.distance, notes := es.notes }

/-- The materialization loop shared by `create_workout` and `update_workout`:
insert each embedded set into `exercise_sets_db` under the running counter;
returns the updated collection, the assigned ids in input order, the created
sets in input order, and the bumped counter. -/
def add_exercise_sets (db : List (Nat × ExerciseSet)) (counter : Nat) :
    List ExerciseSetCreate →
      List (Nat × ExerciseSet) × List Nat × List ExerciseSet × Nat
  | [] => (db, [], [], counter)
  | es :: rest =>
      let ns := mk_exercise_set counter es
      let r := add_exercise_sets (dinsert db counter ns) (counter + 1) rest
      (r.1, counter :: r.2.1, ns :: r.2.2.1, r.2.2.2)

/-- The cascade loop of `update_workout` / `delete_workout`:
`for es_id in ids: if es_id in db: del db[es_id]`. -/
def delete_ids (db : List (Nat × ExerciseSet)) : List Nat → List (Nat × ExerciseSet)
  | [] => db
  | id :: rest =>
      delete_ids (if dcontains db id then derase db id else db) rest

/-- `get_workout_detail`: the workout joined with the surviving exercise sets
of its membership list, in list order. -/
def get_workout_detail (s : Store) (workout_id : Nat) : Option WorkoutDetail :=
  match dlookup s.workouts_db workout_id with
  | none => none
  | some w =>
      let ids := (dlookup s.workout_exercise_sets workout_id).getD []
      some { workout := w
             exercise_sets := ids.filterMap (dlookup s.exercise_sets_db) }

/-- `create_workout`: stores the workout, materializes embedded exercise sets
(when the list is truthy), updates the owner's stats (when `user_id` is truthy
and has a stats record), bumps the workout id counter. -/
def create_workout (s : Store) (workout : WorkoutCreate) (user_id : Option Nat)
    (now today : Nat) : WorkoutDetail × Store :=
  let wid := s.workout_id_counter
  let new_workout : Workout :=
    { id := wid, created_at := now, user_id := user_id
      title := workout.title, description := workout.description
      category := workout.category, duration_minutes := workout.duration_minutes
      calories_burned := workout.calories_burned, notes := workout.notes }
  let s :=
    { s with
      workouts_db := dinsert s.workouts_db wid new_workout
      workout_exercise_sets := dinsert s.workout_exercise_sets wid [] }
  let step :=
    if truthyOptList workout.exercise_sets then
      let r := add_exercise_sets s.exercise_sets_db s.exercise_set_id_counter
        (workout.exercise_sets.getD [])
      ({ s with
          exercise_sets_db := r.1
          workout_exercise_sets := dinsert s.workout_exercise_sets wid r.2.1
          exercise_set_id_counter := r.2.2.2 }, r.2.2.1)
    else (s, [])
  let s := step.1
  let s :=
    match user_id with
    | none => s
    | some uid =>
        if uid != 0 && dcontains s.user_stats_db uid then
          match dlookup s.user_stats_db uid with
          | none => s
          | some user_stats =>
              let user_stats :=
                { user_stats with
                  total_workouts := user_stats.total_workouts + 1
                  total_workout_minutes :=
                    user_stats.total_workout_minutes + workout.duration_minutes
                  last_workout_date := some today }
              let user_stats :=
                if user_stats.last_workout_date = some today then
                  { user_stats with streak_days := user_stats.streak_days + 1 }
                else
                  { user_stats with streak_days := 1 }
              let user_stats := { user_stats with last_updated := now }
              { s with user_stats_db := dinsert s.user_stats_db uid user_stats }
        else s
  ({ workout := new_workout, exercise_sets := step.2 },
   { s with workout_id_counter := wid + 1 })

/-- `update_workout`: replaces all scalar fields keeping id, `created_at` and
`user_id`; when the supplied exercise-set list is truthy, destroys every
previously owned set and materializes the new ones. -/
def update_workout (s : Store) (workout_id : Nat) (workout_data : WorkoutCreate) :
    Option WorkoutDetail × Store :=
  match dlookup s.workouts_db workout_id with
  | none => (none, s)
  | some old =>
      let updated_workout : Workout :=
        { id := workout_id, created_at := old.created_at, user_id := old.user_id
          title := workout_data.title, description := workout_data.description
          category := workout_data.category
          duration_minutes := workout_data.duration_minutes
          calories_burned := workout_data.calories_burned
          notes := workout_data.notes }
      let s := { s with workouts_db := dinsert s.workouts_db workout_id updated_workout }
      let s :=
        if truthyOptList workout_data.exercise_sets then
          let owned := (dlookup s.workout_exercise_sets workout_id).getD []
          let s := { s with exercise_sets_db := delete_ids s.exercise_sets_db owned }
          let s :=
            { s with workout_exercise_sets := dinsert s.workout_exercise_sets workout_id [] }
          let r := add_exercise_sets s.exercise_sets_db s.exercise_set_id_counter
            (workout_data.exercise_sets.getD [])
          { s with
            exercise_sets_db := r.1
            workout_exercise_sets := dinsert s.workout_exercise_sets workout_id r.2.1
            exercise_set_id_counter := r.2.2.2 }
        else s
      (get_workout_detail s workout_id, s)

/-- `delete_workout`: destroys the workout, every exercise set it owns, and
its membership entry; `false` and untouched store when the id is absent. -/
def delete_workout (s : Store) (workout_id : Nat) : Bool × Store :=
  if dcontains s.workouts_db workout_id then
    let owned := (dlookup s.workout_exercise_sets workout_id).getD []
    let s := { s with exercise_sets_db := delete_ids s.exercise_sets_db owned }
    let s :=
      if dcontains s.workout_exercise_sets workout_id then
        { s with workout_exercise_sets := derase s.workout_exercise_sets workout_id }
      else s
    (true, { s with workouts_db := derase s.workouts_db workout_id })
  else (false, s)

-- Exercise CRUD operations.

/-- `delete_exercise`: `false` when the id is absent, `false` (store
untouched) when some stored `ExerciseSet` references the exercise, removal
otherwise. -/
def delete_exercise (s : Store) (exercise_id : Nat) : Bool × Store :=
  if dcontains s.exercises_db exercise_id then
    if s.exercise_sets_db.any (fun p => p.2.exercise_id == exercise_id) then
      (false, s)
    else
      (true, { s with exercises_db := derase s.exercises_db exercise_id })
  else (false, s)

/-- The `DELETE /exercises/{id}` route handler (`src/routers/exercises.py`):
404 when the exercise is absent, 403 when `created_by` is truthy and differs
from the caller, 400 when `crud.delete_exercise` reports failure, 204 on
success. -/
def delete_exercise_route (s : Store) (exercise_id current_user_id : Nat) :
    Nat × Store :=
  match dlookup s.exercises_db exercise_id with
  | none => (404, s)
  | some existing_exercise =>
      if truthyOptNat existing_exercise.created_by &&
          existing_exercise.created_by != some current_user_id then
        (403, s)
      else
        let r := delete_exercise s exercise_id
        if r.1 then (204, r.2) else (400, r.2)

-- Workout Plan CRUD operations.

/-- `add_workout_to_plan`: fails with `none` when the plan id or the workout
id is absent; otherwise appends the workout id to the plan's list unless
already present. -/
def add_workout_to_plan (s : Store) (plan_id workout_id : Nat) :
    Option WorkoutPlan × Store :=
  if !dcontains s.workout_plans_db plan_id || !dcontains s.workouts_db workout_id then
    (none, s)
  else
    match dlookup s.workout_plans_db plan_id with
    | none => (none, s)
    | some plan =>
        let plan :=
          if workout_id ∈ plan.workouts then plan
          else { plan with workouts := plan.workouts ++ [workout_id] }
        (some plan, { s with workout_plans_db := dinsert s.workout_plans_db plan_id plan })

/-- `remove_workout_from_plan`: fails with `none` only when the plan id is
absent; removes the first occurrence of the workout id if present. -/
def remove_workout_from_plan (s : Store) (plan_id workout_id : Nat) :
    Option WorkoutPlan × Store :=
  match dlookup s.workout_plans_db plan_id with
  | none => (none, s)
  | some plan =>
      let plan :=
        if workout_id ∈ plan.workouts then
          { plan with workouts := plan.workouts.erase workout_id }
        else plan
      (some plan, { s with workout_plans_db := dinsert s.workout_plans_db plan_id plan })

-- Store invariants referenced by the claims.

/-- No two stored users share a username. -/
def usernames_unique (s : Store) : Prop :=
  (s.users_db.map (fun p => p.2.username)).Nodup

/-- No two stored users share an email. -/
def emails_unique (s : Store) : Prop :=
  (s.users_db.map (fun p => p.2.email)).Nodup

instance (s : Store) : Decidable (usernames_unique s) := by
  unfold usernames_unique; infer_instance

instance (s : Store) : Decidable (emails_unique s) := by
  unfold emails_unique; infer_instance

/-- Key-uniqueness of a modelled dict (holds for genuine Python dicts). -/
def keysNodup {κ α : Type} (d : List (κ × α)) : Prop := (dkeys d).Nodup

instance {κ α : Type} [DecidableEq κ] (d : List (κ × α)) :
    Decidable (keysNodup d) := by
  unfold keysNodup; infer_instance

section DictLemmas

variable {κ α : Type} [DecidableEq κ]

@[simp] theorem dlookup_nil (k : κ) : dlookup ([] : List (κ × α)) k = none := rfl

theorem dlookup_cons (k' : κ) (v : α) (rest : List (κ × α)) (k : κ) :
    dlookup ((k', v) :: rest) k = if k' = k then some v else dlookup rest k := rfl

@[simp] theorem dlookup_dinsert_self (d : List (κ × α)) (k : κ) (v : α) :
    dlookup (dinsert d k v) k = some v := by
  induction d with
  | nil => simp [dinsert, dlookup]
  | cons hd tl ih =>
      obtain ⟨k', v'⟩ := hd
      by_cases h : k' = k <;> simp [dinsert, dlookup, h, ih]

theorem dlookup_dinsert_ne (d : List (κ × α)) (k k' : κ) (v : α) (h : k' ≠ k) :
    dlookup (dinsert d k v) k' = dlookup d k' := by
  have hks : k ≠ k' := Ne.symm h
  induction d with
  | nil => simp [dinsert, dlookup, hks]
  | cons hd tl ih =>
      obtain ⟨k₀, v₀⟩ := hd
      by_cases h0 : k₀ = k
      · subst h0
        simp [dinsert, dlookup, hks]
      · simp [dinsert, dlookup, h0, ih]

theorem dlookup_derase_ne (d : List (κ × α)) (k k' : κ) (h : k' ≠ k) :
    dlookup (derase d k) k' = dlookup d k' := by
  have hks : k ≠ k' := Ne.symm h
  induction d with
  | nil => simp [derase]
  | cons hd tl ih =>
      obtain ⟨k₀, v₀⟩ := hd
      by_cases h0 : k₀ = k
      · subst h0
        simp [derase, dlookup, hks]
      · simp [derase, dlookup, h0, ih]

theorem dlookup_eq_none_iff (d : List (κ × α)) (k : κ) :
    dlookup d k = none ↔ ∀ p ∈ d, p.1 ≠ k := by
  induction d with
  | nil => simp
  | cons hd tl ih =>
      obtain ⟨k₀, v₀⟩ := hd
      by_cases h0 : k₀ = k <;> simp [dlookup, h0, ih]

theorem derase_sublist (d : List (κ × α)) (k : κ) : (derase d k).Sublist d := by
  induction d with
  | nil => simp [derase]
  | cons hd tl ih =>
      obtain ⟨k₀, v₀⟩ := hd
      by_cases h0 : k₀ = k
      · simp only [derase, if_pos h0]
        exact List.sublist_cons_self _ _
      · simp only [derase, if_neg h0]
        exact ih.cons₂ _

theorem dlookup_derase_self (d : List (κ × α)) (k : κ) (h : keysNodup d) :
    dlookup (derase d k) k = none := by
  induction d with
  | nil => simp [derase]
  | cons hd tl ih =>
      obtain ⟨k₀, v₀⟩ := hd
      unfold keysNodup dkeys at h
      simp only [List.map_cons, List.nodup_cons] at h
      by_cases h0 : k₀ = k
      · subst h0
        simp only [derase, if_pos rfl]
        rw [dlookup_eq_none_iff]
        intro p hp hpk
        exact h.1 (hpk ▸ List.mem_map_of_mem Prod.fst hp)
      · simp only [derase, if_neg h0, dlookup, if_neg h0]
        exact ih h.2

theorem keysNodup_derase (d : List (κ × α)) (k : κ) (h : keysNodup d) :
    keysNodup (derase d k) := by
  unfold keysNodup at h ⊢
  exact h.sublist ((derase_sublist d k).map Prod.fst)

theorem derase_eq_of_not_contains (d : List (κ × α)) (k : κ)
    (h : dcontains d k = false) : derase d k = d := by
  induction d with
  | nil => rfl
  | cons hd tl ih =>
      obtain ⟨k₀, v₀⟩ := hd
      unfold dcontains dlookup at h
      by_cases h0 : k₀ = k
      · simp [h0] at h
      · simp only [if_neg h0] at h
        simp [derase, h0, ih h]

theorem dlookup_mem (d : List (κ × α)) (k : κ) (v : α)
    (h : dlookup d k = some v) : (k, v) ∈ d := by
  induction d with
  | nil => simp at h
  | cons hd tl ih =>
      obtain ⟨k₀, v₀⟩ := hd
      by_cases h0 : k₀ = k
      · subst h0
        simp only [dlookup, if_pos rfl] at h
        cases h
        exact List.mem_cons_self _ _
      · simp only [dlookup, if_neg h0] at h
        exact List.mem_cons_of_mem _ (ih h)

theorem dinsert_eq_append (d : List (κ × α)) (k : κ) (v : α)
    (h : dcontains d k = false) : dinsert d k v = d ++ [(k, v)] := by
  induction d with
  | nil => rfl
  | cons hd tl ih =>
      obtain ⟨k₀, v₀⟩ := hd
      unfold dcontains dlookup at h
      by_cases h0 : k₀ = k
      · simp [h0] at h
      · simp only [if_neg h0] at h
        simp [dinsert, h0, ih h]

theorem mem_dinsert (d : List (κ × α)) (k : κ) (v : α) (p : κ × α)
    (h : p ∈ dinsert d k v) : p ∈ d ∨ p = (k, v) := by
  induction d with
  | nil => simpa [dinsert] using h
  | cons hd tl ih =>
      obtain ⟨k₀, v₀⟩ := hd
      by_cases h0 : k₀ = k
      · simp only [dinsert, if_pos h0] at h
        rcases List.mem_cons.1 h with h1 | h1
        · right; exact h1
        · left; exact List.mem_cons_of_mem _ h1
      · simp only [dinsert, if_neg h0] at h
        rcases List.mem_cons.1 h with h1 | h1
        · left; exact h1 ▸ List.mem_cons_self _ _
        · rcases ih h1 with h2 | h2
          · left; exact List.mem_cons_of_mem _ h2
          · right; exact h2

end DictLemmas

section CascadeLemmas

theorem delete_ids_sublist (db : List (Nat × ExerciseSet)) (ids : List Nat) :
    (delete_ids db ids).Sublist db := by
  induction ids generalizing db with
  | nil => simp [delete_ids]
  | cons id rest ih =>
      unfold delete_ids
      by_cases h : dcontains db id
      · simp only [h, if_true]
        exact (ih (derase db id)).trans (derase_sublist db id)
      · simp only [h]
        simpa using ih db

theorem keysNodup_delete_ids (db : List (Nat × ExerciseSet)) (ids : List Nat)
    (h : keysNodup db) : keysNodup (delete_ids db ids) := by
  unfold keysNodup at h ⊢
  exact h.sublist ((delete_ids_sublist db ids).map Prod.fst)

theorem dlookup_delete_ids_not_mem (db : List (Nat × ExerciseSet)) (ids : List Nat)
    (k : Nat) (hk : k ∉ ids) :
    dlookup (delete_ids db ids) k = dlookup db k := by
  induction ids generalizing db with
  | nil => rfl
  | cons id rest ih =>
      have hkid : k ≠ id := fun h => hk (h ▸ List.mem_cons_self _ _)
      have hkr : k ∉ rest := fun h => hk (List.mem_cons_of_mem _ h)
      unfold delete_ids
      by_cases h : dcontains db id
      · simp only [h, if_true]
        rw [ih (derase db id) hkr, dlookup_derase_ne db id k hkid]
      · simp only [h]
        simpa using ih db hkr

theorem dlookup_delete_ids_of_none (db : List (Nat × ExerciseSet)) (ids : List Nat)
    (k : Nat) (h : dlookup db k = none) :
    dlookup (delete_ids db ids) k = none := by
  rw [dlookup_eq_none_iff] at h ⊢
  intro p hp
  exact h p ((delete_ids_sublist db ids).mem hp)

theorem dlookup_delete_ids_mem (db : List (Nat × ExerciseSet)) (ids : List Nat)
    (k : Nat) (hdb : keysNodup db) (hk : k ∈ ids) :
    dlookup (delete_ids db ids) k = none := by
  induction ids generalizing db with
  | nil => simp at hk
  | cons id rest ih =>
      unfold delete_ids
      by_cases hcase : k = id
      · subst hcase
        by_cases h : dcontains db k
        · simp only [h, if_true]
          exact dlookup_delete_ids_of_none _ rest k (dlookup_derase_self db k hdb)
        · simp only [h]
          simp only [dcontains, Option.isSome] at h
          have hnone : dlookup db k = none := by
            cases hval : dlookup db k with
            | none => rfl
            | some v => rw [hval] at h; simp at h
          simpa using dlookup_delete_ids_of_none db rest k hnone
      · have hkr : k ∈ rest := by
          rcases List.mem_cons.1 hk with h1 | h1
          · exact absurd h1 hcase
          · exact h1
        by_cases h : dcontains db id
        · simp only [h, if_true]
          exact ih (derase db id) (keysNodup_derase db id hdb) hkr
        · simp only [h]
          simpa using ih db hdb hkr

end CascadeLemmas

section MaterializeLemmas

theorem add_exercise_sets_ids (db : List (Nat × ExerciseSet)) (counter : Nat)
    (l : List ExerciseSetCreate) :
    (add_exercise_sets db counter l).2.1 = List.range' counter l.length := by
  induction l generalizing db counter with
  | nil => simp [add_exercise_sets]
  | cons es rest ih =>
      simp [add_exercise_sets, ih, List.range'_succ]

theorem add_exercise_sets_counter (db : List (Nat × ExerciseSet)) (counter : Nat)
    (l : List ExerciseSetCreate) :
    (add_exercise_sets db counter l).2.2.2 = counter + l.length := by
  induction l generalizing db counter with
  | nil => simp [add_exercise_sets]
  | cons es rest ih =>
      simp only [add_exercise_sets, List.length_cons, ih]
      omega

theorem add_exercise_sets_sets_exercise_ids (db : List (Nat × ExerciseSet))
    (counter : Nat) (l : List ExerciseSetCreate) :
    (add_exercise_sets db counter l).2.2.1.map ExerciseSet.exercise_id =
      l.map ExerciseSetCreate.exercise_id := by
  induction l generalizing db counter with
  | nil => simp [add_exercise_sets]
  | cons es rest ih =>
      simp [add_exercise_sets, ih, mk_exercise_set]

theorem dlookup_add_exercise_sets_low (db : List (Nat × ExerciseSet))
    (counter : Nat) (l : List ExerciseSetCreate) (k : Nat) (hk : k < counter) :
    dlookup (add_exercise_sets db counter l).1 k = dlookup db k := by
  induction l generalizing db counter with
  | nil => rfl
  | cons es rest ih =>
      simp only [add_exercise_sets]
      rw [ih (dinsert db counter (mk_exercise_set counter es)) (counter + 1)
        (Nat.lt_succ_of_lt hk)]
      exact dlookup_dinsert_ne db counter k _ (Nat.ne_of_lt hk)

theorem dlookup_add_exercise_sets_mem (db : List (Nat × ExerciseSet))
    (counter : Nat) (l : List ExerciseSetCreate) :
    ∀ es ∈ (add_exercise_sets db counter l).2.2.1,
      dlookup (add_exercise_sets db counter l).1 es.id = some es := by
  induction l generalizing db counter with
  | nil => simp [add_exercise_sets]
  | cons e rest ih =>
      intro es hes
      simp only [add_exercise_sets, List.mem_cons] at hes ⊢
      rcases hes with hes | hes
      · subst hes
        rw [show (mk_exercise_set counter e).id = counter from rfl,
          dlookup_add_exercise_sets_low _ (counter + 1) rest counter
            (Nat.lt_succ_self counter)]
        exact dlookup_dinsert_self db counter _
      · exact ih (dinsert db counter (mk_exercise_set counter e)) (counter + 1) es hes

theorem add_exercise_sets_ids_eq (db : List (Nat × ExerciseSet)) (counter : Nat)
    (l : List ExerciseSetCreate) :
    (add_exercise_sets db counter l).2.1 =
      (add_exercise_sets db counter l).2.2.1.map ExerciseSet.id := by
  induction l generalizing db counter with
  | nil => rfl
  | cons es rest ih => simp [add_exercise_sets, ih, mk_exercise_set]

/-- Looking the freshly assigned ids back up in the updated collection
recovers exactly the input's `exercise_id` values, in input order. -/
theorem add_exercise_sets_lookup_ids (db : List (Nat × ExerciseSet))
    (counter : Nat) (l : List ExerciseSetCreate) :
    (add_exercise_sets db counter l).2.1.map
        (fun i => (dlookup (add_exercise_sets db counter l).1 i).map
          ExerciseSet.exercise_id)
      = l.map (fun e => some e.exercise_id) := by
  rw [add_exercise_sets_ids_eq, List.map_map]
  have h1 : (add_exercise_sets db counter l).2.2.1.map
      ((fun i => (dlookup (add_exercise_sets db counter l).1 i).map
        ExerciseSet.exercise_id) ∘ ExerciseSet.id)
      = (add_exercise_sets db counter l).2.2.1.map
          (fun es => some es.exercise_id) :=
    List.map_congr_left (fun es hes => by
      show (dlookup (add_exercise_sets db counter l).1 es.id).map
        ExerciseSet.exercise_id = some es.exercise_id
      rw [dlookup_add_exercise_sets_mem db counter l es hes]
      rfl)
  rw [h1]
  have h3 : (fun (es : ExerciseSet) => some es.exercise_id)
      = (some ∘ ExerciseSet.exercise_id) := rfl
  have h4 : (fun (e : ExerciseSetCreate) => some e.exercise_id)
      = (some ∘ ExerciseSetCreate.exercise_id) := rfl
  rw [h3, h4, ← List.map_map, ← List.map_map,
    add_exercise_sets_sets_exercise_ids]

end MaterializeLemmas

-- Concrete sample data, used to witness the theorems on evaluable inputs.

def sampleUser (i : Nat) (uname email : String) : User :=
  { id := i, email := email, username := uname, full_name := none
    is_active := true, created_at := 0 }

def sampleExercise (i : Nat) (creator : Option Nat) : Exercise :=
  { id := i, name := "pushup", description := none
    muscle_groups := [MuscleGroup.chest], equipment_needed := none
    created_by := creator }

def sampleSet (i eid : Nat) : ExerciseSet :=
  { id := i, exercise_id := eid, reps := some 10, weight := none
    duration_seconds := none, distance := none, notes := none }

def sampleSetCreate (eid : Nat) : ExerciseSetCreate :=
  { exercise_id := eid, reps := some 5, weight := none
    duration_seconds := none, distance := none, notes := none }

def sampleWorkout (i : Nat) : Workout :=
  { id := i, title := "w", description := none
    category := WorkoutCategory.strength, duration_minutes := 20
    calories_burned := none, notes := none, created_at := 0, user_id := some 1 }

def sampleWorkoutCreate (es : Option (List ExerciseSetCreate)) : WorkoutCreate :=
  { title := "w2", description := none, category := WorkoutCategory.cardio
    duration_minutes := 25, calories_burned := none, notes := none
    exercise_sets := es }

def samplePlan (i : Nat) (ws : List Nat) : WorkoutPlan :=
  { id := i, name := "p", description := none, duration_weeks := 4
    target_muscle_groups := [], difficulty_level := 2, created_at := 0
    created_by := 1, workouts := ws }

def sampleStats (u : Nat) : UserStats :=
  { user_id := u, weight := none, height := none, body_fat_percentage := none
    total_workouts := 3, total_workout_minutes := 60, streak_days := 2
    last_workout_date := some 4, last_updated := 0 }

def emptyStore : Store :=
  { users_db := [], user_id_counter := 1, users_passwords := []
    exercises_db := [], exercise_id_counter := 1
    exercise_sets_db := [], exercise_set_id_counter := 1
    workouts_db := [], workout_id_counter := 1
    workout_exercise_sets := [], workout_plans_db := []
    workout_plan_id_counter := 1, user_stats_db := [] }

/-- A small store: one workout (id 1) owning exercise set 1. -/
def storeA : Store :=
  { emptyStore with
    workouts_db := [(1, sampleWorkout 1)]
    workout_id_counter := 2
    exercise_sets_db := [(1, sampleSet 1 1)]
    exercise_set_id_counter := 2
    workout_exercise_sets := [(1, [1])] }

-- ======================================================================
-- Claim theorems
-- ======================================================================

/-- **C1.**  For every workout id present in the store, `update_workout` with
an input supplying a non-empty list of exercise sets destroys every
`ExerciseSet` previously owned by that workout (their ids are no longer in
`exercise_sets_db` afterwards) and sets the workout's membership list to
exactly the newly materialized set ids, in input order; the workout's `id`,
`created_at` and owner `user_id` are unchanged.  The store is assumed
well-formed: set keys are unique and the owned set ids are below the id
counter (ids are assigned monotonically and never reused). -/
theorem updateWorkout_replaces_exercise_sets
    (s : Store) (wid : Nat) (wd : WorkoutCreate) (w : Workout)
    (l : List ExerciseSetCreate)
    (hw : dlookup s.workouts_db wid = some w)
    (hes : wd.exercise_sets = some l) (hne : l ≠ [])
    (hnd : keysNodup s.exercise_sets_db)
    (hfresh : ∀ k ∈ (dlookup s.workout_exercise_sets wid).getD [],
      k < s.exercise_set_id_counter) :
    (∀ k ∈ (dlookup s.workout_exercise_sets wid).getD [],
        dlookup (update_workout s wid wd).2.exercise_sets_db k = none) ∧
    dlookup (update_workout s wid wd).2.workout_exercise_sets wid =
      some (List.range' s.exercise_set_id_counter l.length) ∧
    (∃ w', dlookup (update_workout s wid wd).2.workouts_db wid = some w' ∧
      w'.id = wid ∧ w'.created_at = w.created_at ∧ w'.user_id = w.user_id) := by
  have hempty : l.isEmpty = false := by
    cases l with
    | nil => exact absurd rfl hne
    | cons a t => rfl
  simp only [update_workout, hw, hes, truthyOptList, hempty, Bool.not_false,
    if_true, Option.getD_some]
  refine ⟨?_, ?_, ?_⟩
  · intro k hk
    rw [dlookup_add_exercise_sets_low _ _ _ k (hfresh k hk)]
    exact dlookup_delete_ids_mem _ _ k hnd hk
  · rw [dlookup_dinsert_self, add_exercise_sets_ids]
  · exact ⟨_, dlookup_dinsert_self _ _ _, rfl, rfl, rfl⟩

/-- **C2.**  For every workout id present in the store, `delete_workout`
succeeds and afterwards neither the workout nor any `ExerciseSet` id it owned
remains in the store; for every absent workout id it fails with the NotFound
signal (`false`) and changes nothing.  Keys of the workout and exercise-set
collections are assumed unique, as in a genuine Python dict. -/
theorem deleteWorkout_cascades
    (s : Store) (wid : Nat)
    (hndset : keysNodup s.exercise_sets_db)
    (hndw : keysNodup s.workouts_db) :
    (dcontains s.workouts_db wid = true →
      (delete_workout s wid).1 = true ∧
      dlookup (delete_workout s wid).2.workouts_db wid = none ∧
      (∀ k ∈ (dlookup s.workout_exercise_sets wid).getD [],
        dlookup (delete_workout s wid).2.exercise_sets_db k = none)) ∧
    (dcontains s.workouts_db wid = false → delete_workout s wid = (false, s)) := by
  constructor
  · intro h
    by_cases hc : dcontains s.workout_exercise_sets wid = true
    · simp only [delete_workout, h, if_true, hc]
      exact ⟨trivial, dlookup_derase_self _ _ hndw,
        fun k hk => dlookup_delete_ids_mem _ _ k hndset hk⟩
    · simp only [Bool.not_eq_true] at hc
      simp only [delete_workout, h, if_true, hc, Bool.false_eq_true, if_false]
      exact ⟨trivial, dlookup_derase_self _ _ hndw,
        fun k hk => dlookup_delete_ids_mem _ _ k hndset hk⟩
  · intro h
    simp [delete_workout, h]

/-- **C10.**  Calling `update_workout` on an existing workout with an
explicitly empty `exercise_sets` list behaves as if no list were supplied:
the previously owned exercise sets all remain in the store, the membership
list is untouched (the source tests the list's Python truthiness, and `[]` is
falsy), and the whole call coincides with the `exercise_sets = None` call. -/
theorem updateWorkout_empty_list_keeps_sets
    (s : Store) (wid : Nat) (wd : WorkoutCreate) (w : Workout)
    (hw : dlookup s.workouts_db wid = some w)
    (hes : wd.exercise_sets = some []) :
    (update_workout s wid wd).2.exercise_sets_db = s.exercise_sets_db ∧
    (update_workout s wid wd).2.workout_exercise_sets = s.workout_exercise_sets ∧
    update_workout s wid wd =
      update_workout s wid { wd with exercise_sets := none } := by
  simp only [update_workout, hw, hes, truthyOptList, List.isEmpty_nil,
    Bool.not_true, Bool.false_eq_true, if_false]
  exact ⟨trivial, trivial, trivial⟩

/-- Witness for C1 at a concrete input: `storeA`'s workout 1 owns set 1; an
update supplying one fresh set destroys set 1 and installs set id 2. -/
theorem updateWorkout_replaces_exercise_sets_witness :
    (∀ k ∈ (dlookup storeA.workout_exercise_sets 1).getD [],
        dlookup (update_workout storeA 1
          (sampleWorkoutCreate (some [sampleSetCreate 1]))).2.exercise_sets_db k
          = none) ∧
    dlookup (update_workout storeA 1
        (sampleWorkoutCreate (some [sampleSetCreate 1]))).2.workout_exercise_sets 1
      = some (List.range' storeA.exercise_set_id_counter
          [sampleSetCreate 1].length) ∧
    (∃ w', dlookup (update_workout storeA 1
        (sampleWorkoutCreate (some [sampleSetCreate 1]))).2.workouts_db 1
        = some w' ∧
      w'.id = 1 ∧ w'.created_at = (sampleWorkout 1).created_at ∧
      w'.user_id = (sampleWorkout 1).user_id) :=
  updateWorkout_replaces_exercise_sets storeA 1
    (sampleWorkoutCreate (some [sampleSetCreate 1])) (sampleWorkout 1)
    [sampleSetCreate 1] rfl rfl (by simp) (by decide) (by decide)

/-- Witness for C2 at a concrete input: deleting workout 1 of `storeA`
succeeds and removes both the workout and its owned set 1. -/
theorem deleteWorkout_cascades_witness :
    (delete_workout storeA 1).1 = true ∧
    dlookup (delete_workout storeA 1).2.workouts_db 1 = none ∧
    (∀ k ∈ (dlookup storeA.workout_exercise_sets 1).getD [],
      dlookup (delete_workout storeA 1).2.exercise_sets_db k = none) :=
  (deleteWorkout_cascades storeA 1 (by decide) (by decide)).1 (by decide)

/-- Witness for C10 at a concrete input: updating workout 1 of `storeA` with
an explicitly empty set list leaves its sets and membership untouched. -/
theorem updateWorkout_empty_list_keeps_sets_witness :
    (update_workout storeA 1 (sampleWorkoutCreate (some []))).2.exercise_sets_db
      = storeA.exercise_sets_db ∧
    (update_workout storeA 1
        (sampleWorkoutCreate (some []))).2.workout_exercise_sets
      = storeA.workout_exercise_sets ∧
    update_workout storeA 1 (sampleWorkoutCreate (some [])) =
      update_workout storeA 1
        { sampleWorkoutCreate (some []) with exercise_sets := none } :=
  updateWorkout_empty_list_keeps_sets storeA 1 (sampleWorkoutCreate (some []))
    (sampleWorkout 1) rfl rfl

/-- Store for the C3 counterexample: a `UserStats` record stored under key 0. -/
def c3_store : Store := { emptyStore with user_stats_db := [(0, sampleStats 0)] }

/-- **C3 counterexample.**  `create_workout` guards the stats update with
Python truthiness (`if user_id and user_id in user_stats_db`), so an owner id
of 0 skips the update even though a `UserStats` record for key 0 exists: the
claim as stated fails at this input. -/
theorem createWorkout_owner_zero_skips_stats :
    dcontains c3_store.user_stats_db 0 = true ∧
    (create_workout c3_store (sampleWorkoutCreate none) (some 0) 9
        7).2.user_stats_db = c3_store.user_stats_db :=
  ⟨rfl, rfl⟩

/-- **C3 (amended).**  For every `create_workout` call whose owner id is
nonzero (the truthiness test `if user_id and ...` skips 0, an id the counter
never assigns) and has an existing `UserStats` record, that record afterwards
has `total_workouts` increased by exactly 1, `total_workout_minutes` increased
by exactly the workout's `duration_minutes`, `last_workout_date = today`,
`last_updated = now`, and `streak_days` increased by exactly 1 regardless of
the previous `last_workout_date` — the reset-to-1 branch is unreachable
because `last_workout_date` is assigned `today` immediately before the
comparison. -/
theorem createWorkout_updates_stats
    (s : Store) (wc : WorkoutCreate) (uid : Nat) (st : UserStats)
    (now today : Nat)
    (h0 : uid ≠ 0)
    (hst : dlookup s.user_stats_db uid = some st) :
    ∃ st', dlookup (create_workout s wc (some uid) now
        today).2.user_stats_db uid = some st' ∧
      st'.total_workouts = st.total_workouts + 1 ∧
      st'.total_workout_minutes = st.total_workout_minutes + wc.duration_minutes ∧
      st'.last_workout_date = some today ∧
      st'.streak_days = st.streak_days + 1 ∧
      st'.last_updated = now := by
  have hc : dcontains s.user_stats_db uid = true := by
    simp [dcontains, hst]
  have hb : (uid != 0) = true := by simp [h0]
  have key : (create_workout s wc (some uid) now today).2.user_stats_db
      = dinsert s.user_stats_db uid
        { st with
          total_workouts := st.total_workouts + 1
          total_workout_minutes := st.total_workout_minutes + wc.duration_minutes
          streak_days := st.streak_days + 1
          last_workout_date := some today
          last_updated := now } := by
    by_cases ht : truthyOptList wc.exercise_sets = true
    · simp [create_workout, ht, hb, hc, hst]
    · simp only [Bool.not_eq_true] at ht
      simp [create_workout, ht, hb, hc, hst]
  rw [key]
  exact ⟨_, dlookup_dinsert_self _ _ _, rfl, rfl, rfl, rfl, rfl⟩

/-- Store for the C3 witness: a `UserStats` record for user 1. -/
def c3w_store : Store := { emptyStore with user_stats_db := [(1, sampleStats 1)] }

/-- Witness for the amended C3 at a concrete input. -/
theorem createWorkout_updates_stats_witness :
    ∃ st', dlookup (create_workout c3w_store (sampleWorkoutCreate none)
        (some 1) 9 7).2.user_stats_db 1 = some st' ∧
      st'.total_workouts = (sampleStats 1).total_workouts + 1 ∧
      st'.total_workout_minutes = (sampleStats 1).total_workout_minutes +
        (sampleWorkoutCreate none).duration_minutes ∧
      st'.last_workout_date = some 7 ∧
      st'.streak_days = (sampleStats 1).streak_days + 1 ∧
      st'.last_updated = 9 :=
  createWorkout_updates_stats c3w_store (sampleWorkoutCreate none) 1
    (sampleStats 1) 9 7 (by decide) rfl

/-- **C4.**  `create_user` with a username already belonging to some stored
user, or an email already belonging to some stored user, fails with the null
signal and leaves the store exactly as before: no user, no password hash, no
`UserStats` record is added. -/
theorem createUser_duplicate_fails
    (s : Store) (u : UserCreate) (now : Nat)
    (h : (∃ p ∈ s.users_db, p.2.username = u.username) ∨
         (∃ p ∈ s.users_db, p.2.email = u.email)) :
    create_user s u now = (none, s) := by
  by_cases h1 : (get_user_by_username s u.username).isSome = true
  · simp [create_user, h1]
  · have h1' : ¬ ∃ p ∈ s.users_db, p.2.username = u.username := by
      rintro ⟨p, hp, hpe⟩
      apply h1
      unfold get_user_by_username
      rw [Option.isSome_map']
      exact List.find?_isSome.2 ⟨p, hp, by simp [hpe]⟩
    have h2 : (get_user_by_email s u.email).isSome = true := by
      rcases h with h | h
      · exact absurd h h1'
      · obtain ⟨p, hp, hpe⟩ := h
        unfold get_user_by_email
        rw [Option.isSome_map']
        exact List.find?_isSome.2 ⟨p, hp, by simp [hpe]⟩
    simp [create_user, h1, h2]

/-- Store for the C4 witness: one registered user "alice". -/
def c4_store : Store :=
  { emptyStore with
    users_db := [(1, sampleUser 1 "alice" "a@x.com")]
    user_id_counter := 2
    users_passwords := [("alice", "h")]
    user_stats_db := [(1, sampleStats 1)] }

/-- Witness for C4 at a concrete input: registering a second "alice" fails
and the store is untouched. -/
theorem createUser_duplicate_fails_witness :
    create_user c4_store
      { email := "b@x.com", username := "alice", full_name := none
        password := "pw123456" } 5 = (none, c4_store) :=
  createUser_duplicate_fails c4_store
    { email := "b@x.com", username := "alice", full_name := none
      password := "pw123456" } 5
    (Or.inl ⟨(1, sampleUser 1 "alice" "a@x.com"), List.mem_cons_self _ _, rfl⟩)

/-- **C5.**  For every exercise id present in the store, `delete_exercise`
fails whenever at least one stored `ExerciseSet` references it, and succeeds
and removes the exercise otherwise; at the route layer the in-use failure
(status 400) is signalled distinctly from the NotFound failure (status 404)
returned when the exercise id is absent. -/
theorem deleteExercise_in_use_guard
    (s : Store) (eid cuid : Nat) (ex : Exercise)
    (hex : dlookup s.exercises_db eid = some ex)
    (hnd : keysNodup s.exercises_db)
    (hauth : (truthyOptNat ex.created_by && ex.created_by != some cuid) = false) :
    ((∃ p ∈ s.exercise_sets_db, p.2.exercise_id = eid) →
        delete_exercise s eid = (false, s) ∧
        delete_exercise_route s eid cuid = (400, s)) ∧
    ((¬ ∃ p ∈ s.exercise_sets_db, p.2.exercise_id = eid) →
        (delete_exercise s eid).1 = true ∧
        dlookup (delete_exercise s eid).2.exercises_db eid = none) ∧
    (∀ t : Store, dlookup t.exercises_db eid = none →
        delete_exercise_route t eid cuid = (404, t)) ∧
    (400 : Nat) ≠ 404 := by
  have hc : dcontains s.exercises_db eid = true := by
    simp [dcontains, hex]
  refine ⟨?_, ?_, ?_, by decide⟩
  · rintro ⟨p, hp, hpe⟩
    have hany : s.exercise_sets_db.any
        (fun p => p.2.exercise_id == eid) = true :=
      List.any_eq_true.2 ⟨p, hp, by simp [hpe]⟩
    constructor
    · simp [delete_exercise, hc, hany]
    · simp [delete_exercise_route, hex, hauth, delete_exercise, hc, hany]
  · intro hne
    have hany : s.exercise_sets_db.any
        (fun p => p.2.exercise_id == eid) = false := by
      rw [Bool.eq_false_iff]
      intro hcon
      obtain ⟨p, hp, hpe⟩ := List.any_eq_true.1 hcon
      exact hne ⟨p, hp, by simpa using hpe⟩
    constructor
    · simp [delete_exercise, hc, hany]
    · simp only [delete_exercise, hc, if_true, hany, Bool.false_eq_true,
        if_false]
      exact dlookup_derase_self _ _ hnd
  · intro t htl
    simp [delete_exercise_route, htl]

/-- Store for the C5 witness: exercise 1 referenced by exercise set 1. -/
def c5_store : Store :=
  { emptyStore with
    exercises_db := [(1, sampleExercise 1 none)]
    exercise_id_counter := 2
    exercise_sets_db := [(1, sampleSet 1 1)]
    exercise_set_id_counter := 2 }

/-- Witness for C5 at concrete inputs: deleting referenced exercise 1 yields
the CRUD failure signal and route status 400, while an absent exercise id
yields route status 404. -/
theorem deleteExercise_in_use_guard_witness :
    (delete_exercise c5_store 1 = (false, c5_store) ∧
      delete_exercise_route c5_store 1 7 = (400, c5_store)) ∧
    delete_exercise_route emptyStore 1 7 = (404, emptyStore) := by
  have h := deleteExercise_in_use_guard c5_store 1 7 (sampleExercise 1 none)
    rfl (by decide) rfl
  exact ⟨h.1 ⟨(1, sampleSet 1 1), List.mem_cons_self _ _, rfl⟩,
    h.2.2.1 emptyStore rfl⟩

/-- **C7 counterexample.**  The CRUD layer performs no referential check when
materializing exercise sets: `create_workout` on a store with an *empty*
exercise collection happily stores a set with `exercise_id = 42`. -/
theorem createWorkout_allows_dangling_exercise_id :
    dlookup (create_workout emptyStore
        (sampleWorkoutCreate (some [sampleSetCreate 42])) none 0
        0).2.exercises_db 42 = none ∧
    dlookup (create_workout emptyStore
        (sampleWorkoutCreate (some [sampleSetCreate 42])) none 0
        0).2.exercise_sets_db 1 = some (mk_exercise_set 1 (sampleSetCreate 42)) ∧
    (mk_exercise_set 1 (sampleSetCreate 42)).exercise_id = 42 :=
  ⟨rfl, rfl, rfl⟩

/-- **C7 (amended).**  Neither `create_workout` nor `update_workout` checks
`exercise_id` when materializing embedded exercise sets: each set is stored
with exactly the `exercise_id` supplied in the input, in input order, the
operations always succeed (no hypothesis on the exercise collection is
needed), and dangling `exercise_id` references are therefore possible through
the CRUD layer. -/
theorem workoutOps_materialize_sets_unchecked
    (s : Store) (wc : WorkoutCreate) (uo : Option Nat) (now today : Nat)
    (wid : Nat) (w : Workout)
    (l : List ExerciseSetCreate) (h : wc.exercise_sets = some l)
    (hw : dlookup s.workouts_db wid = some w) :
    ((create_workout s wc uo now today).1.exercise_sets).map
        ExerciseSet.exercise_id = l.map ExerciseSetCreate.exercise_id ∧
    (∀ es ∈ (create_workout s wc uo now today).1.exercise_sets,
      dlookup (create_workout s wc uo now today).2.exercise_sets_db es.id
        = some es) ∧
    (l ≠ [] →
      ((dlookup (update_workout s wid wc).2.workout_exercise_sets
          wid).getD []).map
          (fun i => (dlookup (update_workout s wid wc).2.exercise_sets_db
            i).map ExerciseSet.exercise_id)
        = l.map (fun e => some e.exercise_id)) := by
  by_cases hemp : l.isEmpty = true
  · have hl : l = [] := by
      cases l with
      | nil => rfl
      | cons a t => simp [List.isEmpty] at hemp
    subst hl
    refine ⟨?_, ?_, fun hne => absurd rfl hne⟩
    · cases uo with
      | none => simp [create_workout, h, truthyOptList]
      | some uid =>
          cases hdl : dlookup s.user_stats_db uid <;>
            simp [create_workout, h, truthyOptList, dcontains, hdl]
    · cases uo with
      | none => simp [create_workout, h, truthyOptList]
      | some uid =>
          cases hdl : dlookup s.user_stats_db uid <;>
            simp [create_workout, h, truthyOptList, dcontains, hdl]
  · have hemp' : l.isEmpty = false := Bool.eq_false_iff.mpr hemp
    have hdet : (create_workout s wc uo now today).1.exercise_sets
        = (add_exercise_sets s.exercise_sets_db s.exercise_set_id_counter
            l).2.2.1 := by
      cases uo with
      | none => simp [create_workout, truthyOptList, hemp', h]
      | some uid =>
          cases hdl : dlookup s.user_stats_db uid <;>
            simp [create_workout, truthyOptList, hemp', h, dcontains, hdl]
    have hdb : (create_workout s wc uo now today).2.exercise_sets_db
        = (add_exercise_sets s.exercise_sets_db s.exercise_set_id_counter
            l).1 := by
      cases uo with
      | none => simp [create_workout, truthyOptList, hemp', h]
      | some uid =>
          cases hdl : dlookup s.user_stats_db uid <;>
            simp [create_workout, truthyOptList, hemp', h, dcontains, hdl,
              apply_ite Store.exercise_sets_db]
    refine ⟨?_, ?_, ?_⟩
    · rw [hdet, add_exercise_sets_sets_exercise_ids]
    · rw [hdet, hdb]
      exact fun es hes => dlookup_add_exercise_sets_mem _ _ _ es hes
    · intro hne
      simp only [update_workout, hw, h, truthyOptList, hemp', Bool.not_false,
        if_true, dlookup_dinsert_self, Option.getD_some]
      exact add_exercise_sets_lookup_ids _ _ l

/-- Witness for the amended C7 at a concrete input: one embedded set in both
a create and an update call over `storeA`. -/
theorem workoutOps_materialize_sets_unchecked_witness :
    ((create_workout storeA (sampleWorkoutCreate (some [sampleSetCreate 9]))
        (some 1) 3 4).1.exercise_sets).map ExerciseSet.exercise_id
      = [sampleSetCreate 9].map ExerciseSetCreate.exercise_id ∧
    (∀ es ∈ (create_workout storeA
        (sampleWorkoutCreate (some [sampleSetCreate 9])) (some 1) 3
        4).1.exercise_sets,
      dlookup (create_workout storeA
          (sampleWorkoutCreate (some [sampleSetCreate 9])) (some 1) 3
          4).2.exercise_sets_db es.id = some es) ∧
    ((dlookup (update_workout storeA 1
        (sampleWorkoutCreate (some [sampleSetCreate 9]))).2.workout_exercise_sets
        1).getD []).map
        (fun i => (dlookup (update_workout storeA 1
          (sampleWorkoutCreate (some [sampleSetCreate 9]))).2.exercise_sets_db
          i).map ExerciseSet.exercise_id)
      = [sampleSetCreate 9].map (fun e => some e.exercise_id) := by
  have h := workoutOps_materialize_sets_unchecked storeA
    (sampleWorkoutCreate (some [sampleSetCreate 9])) (some 1) 3 4 1
    (sampleWorkout 1) [sampleSetCreate 9] rfl rfl
  exact ⟨h.1, h.2.1, h.2.2 (by simp)⟩

/-- Store for the C8 counterexample: plan 1 exists, the workout store is
empty. -/
def c8_store : Store :=
  { emptyStore with
    workout_plans_db := [(1, samplePlan 1 [])]
    workout_plan_id_counter := 2 }

/-- **C8 counterexample.**  `add_workout_to_plan` *does* check the workout
collection: with plan 1 present but workout 99 absent the call fails with the
NotFound signal instead of succeeding, so the claim that the workout id is
not verified at the CRUD layer is false. -/
theorem addWorkoutToPlan_requires_workout :
    dcontains c8_store.workout_plans_db 1 = true ∧
    dcontains c8_store.workouts_db 99 = false ∧
    add_workout_to_plan c8_store 1 99 = (none, c8_store) :=
  ⟨rfl, rfl, rfl⟩

/-- **C8 (amended).**  `add_workout_to_plan` verifies both ids: it fails with
NotFound (`none`, store untouched) when the plan id *or* the workout id is
absent, and succeeds whenever both are present. -/
theorem addWorkoutToPlan_checks_both (s : Store) (pid wid : Nat) :
    ((dcontains s.workout_plans_db pid = false ∨
        dcontains s.workouts_db wid = false) →
      add_workout_to_plan s pid wid = (none, s)) ∧
    (dcontains s.workout_plans_db pid = true →
      dcontains s.workouts_db wid = true →
      (add_workout_to_plan s pid wid).1.isSome = true) := by
  constructor
  · rintro (h | h) <;> simp [add_workout_to_plan, h]
  · intro h1 h2
    cases hpl : dlookup s.workout_plans_db pid with
    | none => simp [dcontains, hpl] at h1
    | some plan => simp [add_workout_to_plan, h1, h2, hpl]

/-- Store shared by the C8 and C9 witnesses: plan 1 and workout 1 both
present. -/
def c89_store : Store :=
  { emptyStore with
    workout_plans_db := [(1, samplePlan 1 [])]
    workout_plan_id_counter := 2
    workouts_db := [(1, sampleWorkout 1)]
    workout_id_counter := 2 }

/-- Witness for the amended C8 at a concrete input. -/
theorem addWorkoutToPlan_checks_both_witness :
    (add_workout_to_plan c89_store 1 1).1.isSome = true :=
  (addWorkoutToPlan_checks_both c89_store 1 1).2 rfl rfl

/-- Store for the C9 counterexample: plan 2 exists with an empty workout
list; workout 7 does not exist. -/
def c9_store : Store :=
  { emptyStore with
    workout_plans_db := [(2, samplePlan 2 [])]
    workout_plan_id_counter := 3 }

/-- **C9 counterexample.**  With plan 2 present but workout 7 absent, calling
`add_workout_to_plan` twice leaves the plan's list empty — it contains the
workout id zero times, not exactly once, because the CRUD layer rejects the
absent workout id (see C8). -/
theorem addWorkoutToPlan_twice_absent_workout :
    dcontains c9_store.workout_plans_db 2 = true ∧
    dlookup (add_workout_to_plan (add_workout_to_plan c9_store 2 7).2 2
        7).2.workout_plans_db 2 = some (samplePlan 2 []) ∧
    (samplePlan 2 []).workouts.count 7 ≠ 1 :=
  ⟨rfl, rfl, by decide⟩

/-- **C9 (amended).**  For every plan id present in the store whose workout
list is duplicate-free and every workout id present in the workout
collection, calling `add_workout_to_plan` twice with the same pair yields a
plan whose list contains the workout id exactly once, and the resulting list
is still duplicate-free (the operation never introduces duplicates). -/
theorem addWorkoutToPlan_idempotent
    (s : Store) (pid wid : Nat) (plan : WorkoutPlan)
    (hp : dlookup s.workout_plans_db pid = some plan)
    (hw : dcontains s.workouts_db wid = true)
    (hnd : plan.workouts.Nodup) :
    ∃ plan₂, dlookup (add_workout_to_plan (add_workout_to_plan s pid wid).2
        pid wid).2.workout_plans_db pid = some plan₂ ∧
      plan₂.workouts.count wid = 1 ∧ plan₂.workouts.Nodup := by
  have h1 : dcontains s.workout_plans_db pid = true := by
    simp [dcontains, hp]
  by_cases hmem : wid ∈ plan.workouts
  · have hcall : add_workout_to_plan s pid wid =
        (some plan,
          { s with workout_plans_db := dinsert s.workout_plans_db pid plan })
        := by
      simp [add_workout_to_plan, h1, hw, hp, hmem]
    rw [hcall]
    have h1' : dcontains (dinsert s.workout_plans_db pid plan) pid = true := by
      simp [dcontains]
    have hp' : dlookup (dinsert s.workout_plans_db pid plan) pid = some plan :=
      dlookup_dinsert_self _ _ _
    refine ⟨plan, ?_, List.count_eq_one_of_mem hnd hmem, hnd⟩
    simp [add_workout_to_plan, h1', hw, hp', hmem]
  · set plan₁ : WorkoutPlan :=
      { plan with workouts := plan.workouts ++ [wid] } with hplan₁
    have hcall : add_workout_to_plan s pid wid =
        (some plan₁,
          { s with workout_plans_db := dinsert s.workout_plans_db pid plan₁ })
        := by
      simp [add_workout_to_plan, h1, hw, hp, hmem, hplan₁]
    rw [hcall]
    have h1' : dcontains (dinsert s.workout_plans_db pid plan₁) pid = true := by
      simp [dcontains]
    have hp' : dlookup (dinsert s.workout_plans_db pid plan₁) pid = some plan₁ :=
      dlookup_dinsert_self _ _ _
    have hmem₁ : wid ∈ plan₁.workouts := by
      simp [hplan₁]
    have hnd₁ : plan₁.workouts.Nodup := by
      simp [hplan₁, List.nodup_append, hnd, hmem]
    refine ⟨plan₁, ?_, ?_, hnd₁⟩
    · simp [add_workout_to_plan, h1', hw, hp', hmem₁]
    · exact List.count_eq_one_of_mem hnd₁ hmem₁

/-- Witness for the amended C9 at a concrete input: adding workout 1 to plan
1 of `c89_store` twice yields a list holding it exactly once. -/
theorem addWorkoutToPlan_idempotent_witness :
    ∃ plan₂, dlookup (add_workout_to_plan (add_workout_to_plan c89_store 1
        1).2 1 1).2.workout_plans_db 1 = some plan₂ ∧
      plan₂.workouts.count 1 = 1 ∧ plan₂.workouts.Nodup :=
  addWorkoutToPlan_idempotent c89_store 1 1 (samplePlan 1 []) rfl rfl
    (by decide)

-- Helper lemmas for the user-uniqueness claim.

theorem apply_user_update_username (u : User) (p : UserUpdate) :
    (apply_user_update u p).username = p.username.getD u.username := by
  obtain ⟨pe, pn, pf⟩ := p
  cases pe <;> cases pn <;> cases pf <;> rfl

theorem apply_user_update_email (u : User) (p : UserUpdate) :
    (apply_user_update u p).email = p.email.getD u.email := by
  obtain ⟨pe, pn, pf⟩ := p
  cases pe <;> cases pn <;> cases pf <;> rfl

/-- Inserting a value whose image under `f` differs from every other entry's
image preserves `Nodup` of the value images (keys unique). -/
theorem nodup_map_val_dinsert {κ α β : Type} [DecidableEq κ]
    (f : α → β) (d : List (κ × α)) (k : κ) (v : α)
    (hkeys : keysNodup d)
    (hfv : ∀ p ∈ d, p.1 ≠ k → f p.2 ≠ f v)
    (hnd : (d.map (fun p => f p.2)).Nodup) :
    ((dinsert d k v).map (fun p => f p.2)).Nodup := by
  induction d with
  | nil => simp [dinsert]
  | cons hd tl ih =>
      obtain ⟨k₀, v₀⟩ := hd
      unfold keysNodup dkeys at hkeys
      simp only [List.map_cons, List.nodup_cons] at hkeys hnd
      by_cases h0 : k₀ = k
      · subst h0
        have hins : dinsert ((k₀, v₀) :: tl) k₀ v = (k₀, v) :: tl := by
          simp [dinsert]
        rw [hins, List.map_cons, List.nodup_cons]
        refine ⟨?_, hnd.2⟩
        intro hmem
        obtain ⟨p, hp, hpe⟩ := List.mem_map.1 hmem
        have hpk : p.1 ≠ k₀ := fun he =>
          hkeys.1 (by rw [← he]; exact List.mem_map_of_mem Prod.fst hp)
        exact hfv p (List.mem_cons_of_mem _ hp) hpk hpe
      · simp only [dinsert, if_neg h0, List.map_cons, List.nodup_cons]
        refine ⟨?_, ih hkeys.2
          (fun p hp hpk => hfv p (List.mem_cons_of_mem _ hp) hpk) hnd.2⟩
        intro hmem
        obtain ⟨p, hp, hpe⟩ := List.mem_map.1 hmem
        rcases mem_dinsert tl k v p hp with hp' | hp'
        · exact hnd.1 (hpe ▸ List.mem_map_of_mem (fun p => f p.2) hp')
        · subst hp'
          exact hfv (k₀, v₀) (List.mem_cons_self _ _) h0 hpe.symm

/-- `delete_user` only ever shrinks `users_db` by the deleted key. -/
theorem delete_user_users_db (s : Store) (uid : Nat) :
    (delete_user s uid).2.users_db =
      match dlookup s.users_db uid with
      | none => s.users_db
      | some _ => derase s.users_db uid := by
  cases hl : dlookup s.users_db uid with
  | none => simp [delete_user, hl]
  | some user => simp [delete_user, hl, apply_ite Store.users_db]

/-- Store for the C6 counterexample: two users with distinct usernames and
emails. -/
def c6_store : Store :=
  { emptyStore with
    users_db := [(1, sampleUser 1 "johndoe" "john@x.com"),
                 (2, sampleUser 2 "janedoe" "jane@x.com")]
    user_id_counter := 3 }

/-- **C6 counterexample.**  `update_user` performs no uniqueness check:
patching user 2's username to "johndoe" on a store satisfying uniqueness
yields a store in which two users share a username, so not every CRUD
operation preserves the invariant. -/
theorem updateUser_breaks_username_uniqueness :
    usernames_unique c6_store ∧ emails_unique c6_store ∧
    ¬ usernames_unique (update_user c6_store 2
        { email := none, username := some "johndoe", full_name := none }).2 := by
  refine ⟨?_, ?_, ?_⟩ <;> decide

/-- **C6 (amended).**  `create_user` and `delete_user` always preserve
uniqueness of usernames and emails; `update_user` preserves it provided the
patched username/email does not equal that of a *different* stored user —
with a colliding patch the invariant is violated (see the counterexample). -/
theorem userOps_preserve_uniqueness
    (s : Store) (u : UserCreate) (uid : Nat) (p : UserUpdate) (now : Nat)
    (hnu : usernames_unique s) (hne : emails_unique s)
    (hkeys : keysNodup s.users_db)
    (hpu : ∀ q ∈ s.users_db, q.1 ≠ uid →
      (∀ n, p.username = some n → q.2.username ≠ n) ∧
      (∀ e, p.email = some e → q.2.email ≠ e)) :
    (usernames_unique (create_user s u now).2 ∧
      emails_unique (create_user s u now).2) ∧
    (usernames_unique (delete_user s uid).2 ∧
      emails_unique (delete_user s uid).2) ∧
    (usernames_unique (update_user s uid p).2 ∧
      emails_unique (update_user s uid p).2) := by
  refine ⟨?_, ?_, ?_⟩
  · -- create_user
    by_cases h1 : (get_user_by_username s u.username).isSome = true
    · simp only [create_user, h1, if_true]
      exact ⟨hnu, hne⟩
    · by_cases h2 : (get_user_by_email s u.email).isSome = true
      · simp only [create_user, h1, Bool.false_eq_true, if_false, h2, if_true]
        exact ⟨hnu, hne⟩
      · have hfu : s.users_db.find?
            (fun q => q.2.username == u.username) = none := by
          rw [← Option.not_isSome_iff_eq_none]
          intro hcon
          exact h1 (by simpa [get_user_by_username, Option.isSome_map']
            using hcon)
        have hfe : s.users_db.find? (fun q => q.2.email == u.email) = none := by
          rw [← Option.not_isSome_iff_eq_none]
          intro hcon
          exact h2 (by simpa [get_user_by_email, Option.isSome_map'] using hcon)
        have hnou : ∀ q ∈ s.users_db, q.2.username ≠ u.username := by
          intro q hq
          have := List.find?_eq_none.1 hfu q hq
          simpa using this
        have hnoe : ∀ q ∈ s.users_db, q.2.email ≠ u.email := by
          intro q hq
          have := List.find?_eq_none.1 hfe q hq
          simpa using this
        simp only [create_user, h1, h2, Bool.false_eq_true, if_false]
        constructor
        · exact nodup_map_val_dinsert User.username s.users_db
            s.user_id_counter _ hkeys (fun q hq _ => hnou q hq) hnu
        · exact nodup_map_val_dinsert User.email s.users_db
            s.user_id_counter _ hkeys (fun q hq _ => hnoe q hq) hne
  · -- delete_user
    have hdb := delete_user_users_db s uid
    cases hl : dlookup s.users_db uid with
    | none =>
        rw [hl] at hdb
        constructor
        · show ((delete_user s uid).2.users_db.map _).Nodup
          rw [hdb]; exact hnu
        · show ((delete_user s uid).2.users_db.map _).Nodup
          rw [hdb]; exact hne
    | some user =>
        rw [hl] at hdb
        constructor
        · show ((delete_user s uid).2.users_db.map _).Nodup
          rw [hdb]
          exact List.Nodup.sublist ((derase_sublist _ _).map _) hnu
        · show ((delete_user s uid).2.users_db.map _).Nodup
          rw [hdb]
          exact List.Nodup.sublist ((derase_sublist _ _).map _) hne
  · -- update_user
    cases hl : dlookup s.users_db uid with
    | none =>
        simp only [update_user, hl]
        exact ⟨hnu, hne⟩
    | some current =>
        have hcur : (uid, current) ∈ s.users_db := dlookup_mem _ _ _ hl
        simp only [update_user, hl]
        constructor
        · refine nodup_map_val_dinsert User.username s.users_db uid
            (apply_user_update current p) hkeys ?_ hnu
          intro q hq hqk
          rw [apply_user_update_username]
          cases hn : p.username with
          | some n => simpa using (hpu q hq hqk).1 n hn
          | none =>
              simp only [Option.getD_none]
              intro he
              have hqe : q = (uid, current) :=
                List.inj_on_of_nodup_map hnu hq hcur (by simpa using he)
              exact hqk (by rw [hqe])
        · refine nodup_map_val_dinsert User.email s.users_db uid
            (apply_user_update current p) hkeys ?_ hne
          intro q hq hqk
          rw [apply_user_update_email]
          cases hn : p.email with
          | some e => simpa using (hpu q hq hqk).2 e hn
          | none =>
              simp only [Option.getD_none]
              intro he
              have hqe : q = (uid, current) :=
                List.inj_on_of_nodup_map hne hq hcur (by simpa using he)
              exact hqk (by rw [hqe])

/-- Witness for the amended C6 at concrete inputs over `c6_store`. -/
theorem userOps_preserve_uniqueness_witness :
    (usernames_unique (create_user c6_store
        { email := "z@x.com", username := "zoe", full_name := none
          password := "pw123456" } 5).2 ∧
      emails_unique (create_user c6_store
        { email := "z@x.com", username := "zoe", full_name := none
          password := "pw123456" } 5).2) ∧
    (usernames_unique (delete_user c6_store 2).2 ∧
      emails_unique (delete_user c6_store 2).2) ∧
    (usernames_unique (update_user c6_store 2
        { email := some "z@x.com", username := some "zoe", full_name := none }).2 ∧
      emails_unique (update_user c6_store 2
        { email := some "z@x.com", username := some "zoe", full_name := none }).2) :=
  userOps_preserve_uniqueness c6_store
    { email := "z@x.com", username := "zoe", full_name := none
      password := "pw123456" } 2
    { email := some "z@x.com", username := some "zoe", full_name := none } 5
    (by decide) (by decide) (by decide) (by decide)

end FitnessTracker
